import Mathlib

/-!
Shallow embedding of the Skyvern task-execution engine
(`skyvern/forge/agent.py`) together with a verification of its
specified behavior.

External collaborators (database, browser, LLM, artifact sink, HTTP
transport) are modelled as oracles: total data where the source call
cannot fail, `Except`-valued data where the source call can raise.
Persistence is modelled as pure record update (the database row mirrors
the in-memory record, and database writes are modelled as total).
Logging, analytics payload contents and the inter-action sleep carry no
data relevant to the verified properties and are not modelled, except
that responder-side effects are recorded in an event trace.
-/

namespace Skyvern

/-- Action kinds (`ActionType` in `skyvern/webeye/actions/actions.py`,
as referenced from agent.py). -/
inductive ActionType
  | click
  | inputText
  | uploadFile
  | selectOption
  | checkbox
  | wait
  | nullAction
  | solveCaptcha
  | terminate
  | complete
  deriving DecidableEq, Repr

/-- One result of executing an action (`ActionResult` in
`skyvern/webeye/actions/responses.py`).  `data` is the extracted payload
(`none` models Python `None`); `stepRetryNumber` and `stepOrder` are
stamped by the executor loop (agent.py lines 411-413). -/
structure ActionResult where
  success : Bool
  data : Option String := none
  javascriptTriggered : Bool := false
  stepRetryNumber : Option Nat := none
  stepOrder : Option Nat := none
  deriving DecidableEq, Repr

/-- An action proposed by the LLM.  The source models actions as a class
hierarchy; web-targeted subclasses (`WebAction`) carry an `element_id`.
Here `elementId = some _` exactly when the action is a `WebAction`. -/
structure Action where
  actionType : ActionType
  elementId : Option Nat := none
  reasoning : Option String := none
  data : Option String := none
  deriving DecidableEq, Repr

/-- `isinstance(action, WebAction)` in the embedding. -/
def Action.isWebAction (a : Action) : Bool :=
  a.elementId.isSome

/-- Step statuses (`StepStatus` in `skyvern/forge/sdk/models.py`). -/
inductive StepStatus
  | created
  | running
  | completed
  | failed
  deriving DecidableEq, Repr

/-- Task statuses (`TaskStatus` in `skyvern/forge/sdk/schemas/tasks.py`). -/
inductive TaskStatus
  | created
  | running
  | completed
  | failed
  | terminated
  deriving DecidableEq, Repr

/-- The persisted step output (`AgentStepOutput` in
`skyvern/webeye/actions/models.py`). -/
structure AgentStepOutput where
  actions : Option (List Action) := none
  actionResults : Option (List ActionResult) := none
  actionsAndResults : Option (List (Action × List ActionResult)) := none
  deriving DecidableEq, Repr

/-- A step row (`Step` in `skyvern/forge/sdk/models.py`). -/
structure Step where
  stepId : String
  taskId : String
  organizationId : Option String := none
  order : Nat
  retryIndex : Nat
  status : StepStatus
  output : Option AgentStepOutput := none
  isLast : Bool := false
  deriving DecidableEq, Repr

/-- A task row (`Task` in `skyvern/forge/sdk/schemas/tasks.py`).
`navigationPayload` is the resolved mapping of user-supplied keys to
values. -/
structure Task where
  taskId : String
  organizationId : Option String := none
  workflowRunId : Option String := none
  url : String := ""
  title : Option String := none
  navigationGoal : Option String := none
  dataExtractionGoal : Option String := none
  navigationPayload : List (String × Option String) := []
  webhookCallbackUrl : Option String := none
  status : TaskStatus := .created
  extractedInformation : Option String := none
  failureReason : Option String := none
  deriving DecidableEq, Repr

/-- Pure semantics of the persistence write performed by
`ForgeAgent.update_task` (agent.py lines 897-922): the provided
(non-None) fields overwrite the row, the rest are untouched. -/
def applyTaskUpdate (t : Task) (status : Option TaskStatus)
    (extractedInformation : Option String) (failureReason : Option String) : Task :=
  { t with
    status := match status with | some v => v | none => t.status
    extractedInformation :=
      match extractedInformation with
      | some v => some v
      | none => t.extractedInformation
    failureReason :=
      match failureReason with
      | some v => some v
      | none => t.failureReason }

/-- `app.DATABASE.create_step` as called from agent.py: a fresh step in
status `created` with the given position.  The generated id is opaque;
the embedding derives it from the position. -/
def createStep (taskId : String) (organizationId : Option String)
    (order retryIndex : Nat) : Step :=
  { stepId := taskId ++ "-" ++ toString order ++ "-" ++ toString retryIndex
    taskId := taskId
    organizationId := organizationId
    order := order
    retryIndex := retryIndex
    status := .created
    output := none
    isLast := false }

/-! ## The effective step ceiling (agent.py lines 986-992) -/

/-- Python truthiness of an optional integer: `None` and `0` are falsy. -/
def optNatTruthy : Option Nat → Bool
  | none => false
  | some n => n != 0

/-- Python `a or b` on optional integers: `b` whenever `a` is falsy. -/
def pyOr (a b : Option Nat) : Option Nat :=
  if optNatTruthy a then a else b

/-- The ceiling computed by `ForgeAgent.handle_completed_step`
(agent.py lines 986-992):
`override_max_steps_per_run or organization.max_steps_per_run or
settings.MAX_STEPS_PER_RUN`, with Python `or` semantics. -/
def effectiveMaxSteps (overrideMax orgMax : Option Nat) (settingsMax : Nat) : Nat :=
  match pyOr (pyOr overrideMax orgMax) (some settingsMax) with
  | some n => n
  | none => settingsMax

/-- The ceiling as the claim states it: the first of the three values
that is defined (non-null), in precedence order, even when the defined
value is `0`. -/
def firstDefinedCeiling (overrideMax orgMax : Option Nat) (settingsMax : Nat) : Nat :=
  match overrideMax with
  | some n => n
  | none =>
    match orgMax with
    | some m => m
    | none => settingsMax

/-! ## Retry policy (`ForgeAgent.handle_failed_step`, agent.py lines 924-954) -/

/-- `ForgeAgent.handle_failed_step`: on a failed step, either retry (new
step, same order, incremented retry index) or conclude the task as
failed.  The first component is the task row after the (possible)
`update_task` write; the second is the created retry step, if any. -/
def handle_failed_step (maxRetriesPerStep : Nat) (task : Task) (step : Step) :
    Task × Option Step :=
  if step.retryIndex ≥ maxRetriesPerStep then
    (applyTaskUpdate task (some .failed) none
      (some ("Max retries per step (" ++ toString maxRetriesPerStep ++ ") exceeded")),
      none)
  else
    (task, some (createStep task.taskId task.organizationId step.order (step.retryIndex + 1)))

/-! ## Step recording (`ForgeAgent.update_step`, agent.py lines 861-895) -/

/-- A field of a step that `update_step` may write. -/
inductive StepField
  | status
  | output
  | isLast
  | retryIndex
  deriving DecidableEq, Repr

/-- A value a step field may hold.  The old value of `output` may be
`None`, hence the option in `vOutput`. -/
inductive FieldVal
  | vStatus (v : StepStatus)
  | vOutput (v : Option AgentStepOutput)
  | vBool (v : Bool)
  | vNat (v : Nat)
  deriving DecidableEq, Repr

/-- The optional keyword arguments of `ForgeAgent.update_step`. -/
structure StepUpdateArgs where
  status : Option StepStatus := none
  output : Option AgentStepOutput := none
  isLast : Option Bool := none
  retryIndex : Option Nat := none
  deriving DecidableEq, Repr

/-- The `updates` dict built by `update_step` (agent.py lines 870-878):
exactly the provided (non-None) keyword arguments, in insertion order. -/
def stepUpdatesList (args : StepUpdateArgs) : List (StepField × FieldVal) :=
  (match args.status with | some v => [(StepField.status, FieldVal.vStatus v)] | none => []) ++
  (match args.output with | some v => [(StepField.output, FieldVal.vOutput (some v))] | none => []) ++
  (match args.isLast with | some v => [(StepField.isLast, FieldVal.vBool v)] | none => []) ++
  (match args.retryIndex with | some v => [(StepField.retryIndex, FieldVal.vNat v)] | none => [])

/-- `getattr(step, key)` for the four updatable fields. -/
def stepFieldVal (s : Step) : StepField → FieldVal
  | .status => .vStatus s.status
  | .output => .vOutput s.output
  | .isLast => .vBool s.isLast
  | .retryIndex => .vNat s.retryIndex

/-- The `update_comparison` dict (agent.py lines 879-883): the provided
fields whose new value differs from the current one, each with its
old and new value. -/
def update_step_diff (s : Step) (args : StepUpdateArgs) :
    List (StepField × FieldVal × FieldVal) :=
  (stepUpdatesList args).filterMap fun fv =>
    if stepFieldVal s fv.1 ≠ fv.2 then some (fv.1, stepFieldVal s fv.1, fv.2) else none

/-- `ForgeAgent.update_step` (agent.py lines 861-895): returns the
logged structured diff and the keyword arguments passed on to
`app.DATABASE.update_step` (the persistence write). -/
def update_step (s : Step) (args : StepUpdateArgs) :
    List (StepField × FieldVal × FieldVal) × List (StepField × FieldVal) :=
  (update_step_diff s args, stepUpdatesList args)

/-- Pure semantics of the persistence write `app.DATABASE.update_step`:
the returned step row with the provided fields applied. -/
def applyStepUpdate (s : Step) (args : StepUpdateArgs) : Step :=
  { s with
    status := match args.status with | some v => v | none => s.status
    output := match args.output with | some v => some v | none => s.output
    isLast := match args.isLast with | some v => v | none => s.isLast
    retryIndex := match args.retryIndex with | some v => v | none => s.retryIndex }

/-! ## Theorems for the step ceiling (C3) -/

/-- C3 counterexample: the claim says the effective step ceiling equals
the first defined (non-null) of override, organization maximum and the
settings fallback, *including when a defined value is 0*.  The code uses
Python `or`, which skips a defined `0`: with `max_steps_override = 0`
and `organization.max_steps_per_run = 5` the code resolves `5`, while
the claim requires `0`. -/
theorem effective_max_steps_cex :
    effectiveMaxSteps (some 0) (some 5) 10 = 5 ∧
    firstDefinedCeiling (some 0) (some 5) 10 = 0 ∧
    effectiveMaxSteps (some 0) (some 5) 10 ≠ firstDefinedCeiling (some 0) (some 5) 10 := by
  refine ⟨rfl, rfl, ?_⟩
  decide

/-- C3 (amended): the effective step ceiling used by
`handle_completed_step` equals the first of `context.max_steps_override`
and `organization.max_steps_per_run` that is defined *and non-zero*, in
that precedence order, falling back to `settings.MAX_STEPS_PER_RUN`
(whose value is used even when it is 0): a defined value 0 is skipped by
Python `or`. -/
theorem effective_max_steps_first_truthy (o g : Option Nat) (s : Nat) :
    (∀ n, o = some n → n ≠ 0 → effectiveMaxSteps o g s = n) ∧
    ((o = none ∨ o = some 0) → ∀ m, g = some m → m ≠ 0 → effectiveMaxSteps o g s = m) ∧
    ((o = none ∨ o = some 0) → (g = none ∨ g = some 0) → effectiveMaxSteps o g s = s) := by
  refine ⟨?_, ?_, ?_⟩
  · rintro n rfl hn
    simp [effectiveMaxSteps, pyOr, optNatTruthy, hn]
  · rintro (rfl | rfl) m rfl hm <;>
      simp [effectiveMaxSteps, pyOr, optNatTruthy, hm]
  · rintro (rfl | rfl) (rfl | rfl) <;>
      simp [effectiveMaxSteps, pyOr, optNatTruthy]

/-- Witness for `effective_max_steps_first_truthy`, exercising all three
branches on concrete inputs. -/
theorem effective_max_steps_first_truthy_witness :
    effectiveMaxSteps (some 3) (some 5) 7 = 3 ∧
    effectiveMaxSteps (some 0) (some 5) 7 = 5 ∧
    effectiveMaxSteps (some 0) (some 0) 7 = 7 :=
  ⟨(effective_max_steps_first_truthy (some 3) (some 5) 7).1 3 rfl (by decide),
   (effective_max_steps_first_truthy (some 0) (some 5) 7).2.1 (Or.inr rfl) 5 rfl (by decide),
   (effective_max_steps_first_truthy (some 0) (some 0) 7).2.2 (Or.inr rfl) (Or.inr rfl)⟩

/-! ## Theorems for the retry policy (C5) -/

/-- C5: for every failed step, if `retry_index < MAX_RETRIES_PER_STEP`
then `handle_failed_step` creates and returns a new step with the same
order and `retry_index + 1` (the task row untouched); otherwise it
returns no next step and the task is updated to `failed` with failure
reason exactly `"Max retries per step (N) exceeded"`. -/
theorem handle_failed_step_retry_policy (maxR : Nat) (task : Task) (step : Step) :
    (step.retryIndex < maxR →
      handle_failed_step maxR task step =
        (task, some (createStep task.taskId task.organizationId step.order (step.retryIndex + 1))) ∧
      ∃ s, (handle_failed_step maxR task step).2 = some s ∧
        s.order = step.order ∧ s.retryIndex = step.retryIndex + 1 ∧ s.status = .created) ∧
    (maxR ≤ step.retryIndex →
      (handle_failed_step maxR task step).2 = none ∧
      (handle_failed_step maxR task step).1.status = .failed ∧
      (handle_failed_step maxR task step).1.failureReason =
        some ("Max retries per step (" ++ toString maxR ++ ") exceeded")) := by
  constructor
  · intro h
    have hlt : ¬ step.retryIndex ≥ maxR := by omega
    refine ⟨by simp [handle_failed_step, hlt], ?_⟩
    refine ⟨createStep task.taskId task.organizationId step.order (step.retryIndex + 1),
      ?_, rfl, rfl, rfl⟩
    simp [handle_failed_step, hlt]
  · intro h
    have hge : step.retryIndex ≥ maxR := h
    simp [handle_failed_step, hge, applyTaskUpdate]

/-- Witness for `handle_failed_step_retry_policy`: both branches at
`MAX_RETRIES_PER_STEP = 2`, with retry indices 0 and 2. -/
theorem handle_failed_step_retry_policy_witness :
    (handle_failed_step 2 { taskId := "t1", status := .running }
        { stepId := "s0", taskId := "t1", order := 0, retryIndex := 0, status := .failed }).2 =
      some (createStep "t1" none 0 1) ∧
    (handle_failed_step 2 { taskId := "t1", status := .running }
        { stepId := "s2", taskId := "t1", order := 0, retryIndex := 2, status := .failed }).2 = none ∧
    (handle_failed_step 2 { taskId := "t1", status := .running }
        { stepId := "s2", taskId := "t1", order := 0, retryIndex := 2, status := .failed }).1.failureReason =
      some "Max retries per step (2) exceeded" := by
  refine ⟨?_, ?_, ?_⟩
  · exact congrArg Prod.snd ((handle_failed_step_retry_policy 2
      { taskId := "t1", status := .running }
      { stepId := "s0", taskId := "t1", order := 0, retryIndex := 0, status := .failed }).1
      (by decide)).1
  · exact ((handle_failed_step_retry_policy 2
      { taskId := "t1", status := .running }
      { stepId := "s2", taskId := "t1", order := 0, retryIndex := 2, status := .failed }).2
      (by decide)).1
  · exact ((handle_failed_step_retry_policy 2
      { taskId := "t1", status := .running }
      { stepId := "s2", taskId := "t1", order := 0, retryIndex := 2, status := .failed }).2
      (by decide)).2.2

/-! ## Theorems for step recording (C7) -/

/-- Concrete step used by the C7 counterexample. -/
def cexStep7 : Step :=
  { stepId := "s", taskId := "t", order := 0, retryIndex := 0, status := .running }

/-- Concrete arguments used by the C7 counterexample: the provided
status equals the step's current status. -/
def cexArgs7 : StepUpdateArgs :=
  { status := some .running }

/-- C7 counterexample: the claim says only fields whose new value
differs are written to persistence, and a call with no changing field is
a no-op.  In the code the persistence call receives *all* provided
fields: updating a running step with `status=running` produces an empty
diff, yet the write passed to `app.DATABASE.update_step` still carries
the status field — the write is not the changed-fields projection of the
diff, and the call is not a no-op. -/
theorem update_step_unchanged_write_cex :
    (update_step cexStep7 cexArgs7).1 = [] ∧
    (update_step cexStep7 cexArgs7).2 = [(StepField.status, FieldVal.vStatus .running)] ∧
    (update_step cexStep7 cexArgs7).2 ≠
      (update_step cexStep7 cexArgs7).1.map (fun e => (e.1, e.2.2)) := by
  refine ⟨rfl, rfl, ?_⟩
  decide

/-- C7 (amended): `update_step` passes every provided (non-None) field
to the persistence write, changed or not; the logged diff maps exactly
the provided fields whose new value differs from the current one to
their old/new pair; and a call in which no provided field changes
produces an empty diff (but still issues the write with the provided
fields). -/
theorem update_step_write_and_diff (s : Step) (args : StepUpdateArgs) :
    (update_step s args).2 = stepUpdatesList args ∧
    (∀ f vOld vNew, (f, vOld, vNew) ∈ (update_step s args).1 ↔
      ((f, vNew) ∈ stepUpdatesList args ∧ vOld = stepFieldVal s f ∧ vOld ≠ vNew)) ∧
    ((∀ fv ∈ stepUpdatesList args, stepFieldVal s fv.1 = fv.2) →
      (update_step s args).1 = []) := by
  refine ⟨rfl, ?_, ?_⟩
  · intro f vOld vNew
    constructor
    · intro hmem
      simp only [update_step, update_step_diff, List.mem_filterMap] at hmem
      obtain ⟨⟨f', v'⟩, hfv, hsome⟩ := hmem
      by_cases hne : stepFieldVal s f' = v'
      · simp [hne] at hsome
      · rw [if_pos hne] at hsome
        have h := Option.some.inj hsome
        injection h with h1 h23
        injection h23 with h2 h3
        subst h1; subst h3; subst h2
        exact ⟨hfv, rfl, hne⟩
    · rintro ⟨hmem, rfl, hne⟩
      simp only [update_step, update_step_diff, List.mem_filterMap]
      exact ⟨(f, vNew), hmem, by simp [hne]⟩
  · intro hall
    simp only [update_step, update_step_diff]
    rw [List.filterMap_eq_nil_iff]
    intro fv hfv
    simp [hall fv hfv]

/-- Witness for `update_step_write_and_diff`: a concrete call in which
the status changes and the output does not appear, checking the diff
membership characterization and the no-change branch. -/
theorem update_step_write_and_diff_witness :
    ((StepField.status, FieldVal.vStatus .running, FieldVal.vStatus .completed) ∈
      (update_step cexStep7 { status := some .completed }).1 ↔
      ((StepField.status, FieldVal.vStatus .completed) ∈
        stepUpdatesList { status := some .completed } ∧
       FieldVal.vStatus .running = stepFieldVal cexStep7 StepField.status ∧
       FieldVal.vStatus .running ≠ FieldVal.vStatus .completed)) ∧
    (update_step cexStep7 { isLast := some false }).1 = [] :=
  ⟨(update_step_write_and_diff cexStep7 { status := some .completed }).2.1
      StepField.status (FieldVal.vStatus .running) (FieldVal.vStatus .completed),
   (update_step_write_and_diff cexStep7 { isLast := some false }).2.2 (by decide)⟩

/-! ## Responder and webhook (`send_task_response`, `execute_task_webhook`,
agent.py lines 680-823) -/

/-- Externally observable effects of the responder, in order of
occurrence. -/
inductive ResponderEvent
  | analyticsCapture (status : TaskStatus)
  | finalScreenshot
  | cleanupBrowser
  | waitForUpload
  | webhookPost (url : String)
  deriving DecidableEq, Repr

/-- An exception from a collaborator, carried opaquely. -/
abbrev Exn := String

/-- The HTTP response object returned by `requests.post`. -/
structure HttpResponse where
  ok : Bool
  statusCode : Nat
  body : String
  deriving DecidableEq, Repr

/-- Errors that `execute_task_webhook` can raise. -/
inductive WebhookErr
  | taskNotFound
  | failedToSendWebhook (cause : Exn)
  deriving DecidableEq, Repr

/-- Oracles consumed by `execute_task_webhook`: artifact share links,
the refreshed task row, the outcome of the POST, and the outcome of
decoding a response body as JSON (`resp.json()`). -/
structure WebhookEnv where
  screenshotUrl : Option String := none
  recordingUrl : Option String := none
  taskFromDb : Option Task := none
  post : Except Exn HttpResponse := .error "no transport"
  respJson : String → Except Exn Unit := fun _ => .ok ()

/-- `ForgeAgent.execute_task_webhook` (agent.py lines 735-823).  Returns
the list of webhook-POST events performed, or the raised error.  The
non-OK logging branch evaluates `resp.json()` inside the same `try`
whose handler wraps any exception in `FailedToSendWebhook`. -/
def execute_task_webhook (env : WebhookEnv) (task : Task) (apiKey : Option String) :
    Except WebhookErr (List ResponderEvent) :=
  match apiKey with
  | none => .ok []
  | some _ =>
    match task.webhookCallbackUrl with
    | none => .ok []
    | some _ =>
      match env.taskFromDb with
      | none => .error .taskNotFound
      | some taskRow =>
        match taskRow.webhookCallbackUrl with
        | none => .ok []
        | some url =>
          match env.post with
          | .error e => .error (.failedToSendWebhook e)
          | .ok resp =>
            if resp.ok then .ok [.webhookPost url]
            else
              match env.respJson resp.body with
              | .error e => .error (.failedToSendWebhook e)
              | .ok _ => .ok [.webhookPost url]

/-- Errors that `send_task_response` can raise (beyond webhook errors). -/
inductive ResponderErr
  | taskNotFound
  | webhook (e : WebhookErr)
  deriving DecidableEq, Repr

/-- Oracles consumed by `send_task_response`: the refreshed task row
(`none` models both an absent row and a failed read, which the source
folds into `TaskNotFound`). -/
structure ResponderEnv where
  refreshedTask : Option Task := none
  webhookEnv : WebhookEnv := {}

/-- `ForgeAgent.send_task_response` (agent.py lines 680-733): refresh
the task, emit the analytics event, attempt the final screenshot, and —
only when the refreshed task has no `workflow_run_id` — clean up the
browser, wait for artifact uploads and run the webhook.  Returns the
event trace. -/
def send_task_response (env : ResponderEnv) (apiKey : Option String) :
    Except ResponderErr (List ResponderEvent) :=
  match env.refreshedTask with
  | none => .error .taskNotFound
  | some task =>
    let headEvents : List ResponderEvent :=
      [.analyticsCapture task.status, .finalScreenshot]
    if task.workflowRunId.isSome then
      .ok headEvents
    else
      match execute_task_webhook env.webhookEnv task apiKey with
      | .error e => .error (.webhook e)
      | .ok webhookEvents =>
        .ok (headEvents ++ [.cleanupBrowser, .waitForUpload] ++ webhookEvents)

/-- `ForgeAgent.create_task_and_step_from_block` (agent.py lines
96-170): resolve the navigation payload from the workflow-run context,
inherit the URL from the current page when the block has none, create
the task (with `webhook_callback_url=None` and the workflow run id),
mark it running, and create step `(order=0, retry_index=0)`. -/
structure TaskBlock where
  url : Option String := none
  title : Option String := none
  navigationGoal : Option String := none
  dataExtractionGoal : Option String := none
  parameterKeys : List String := []
  deriving DecidableEq, Repr

/-- URL resolution of `create_task_and_step_from_block` (agent.py
lines 110-120): the block URL if present, otherwise the current page
URL; no page raises `MissingBrowserStatePage`, an `about:blank` page
raises `InvalidWorkflowTaskURLState`. -/
def resolveBlockUrl (block : TaskBlock) (browserPageUrl : Option String) :
    Except Exn String :=
  match block.url with
  | some u => .ok u
  | none =>
    match browserPageUrl with
    | none => .error "MissingBrowserStatePage"
    | some u =>
      if u = "about:blank" then .error "InvalidWorkflowTaskURLState" else .ok u

/-- The task row created by `create_task_and_step_from_block` (agent.py
lines 122-154), after the `update_task` write that marks it running:
note `webhookCallbackUrl := none` (line 125). -/
def taskFromBlock (block : TaskBlock) (organizationId : Option String)
    (workflowRunId : String) (ctxValue : String → Option String) (u : String) : Task :=
  { taskId := "task-" ++ workflowRunId
    organizationId := organizationId
    workflowRunId := some workflowRunId
    url := u
    title := block.title
    navigationGoal := block.navigationGoal
    dataExtractionGoal := block.dataExtractionGoal
    navigationPayload := block.parameterKeys.map fun k => (k, ctxValue k)
    webhookCallbackUrl := none
    status := .running }

/-- See `TaskBlock`.  `ctxValue` models
`workflow_run_context.get_value`; `browserPageUrl` models
`browser_state.page.url` (`none` when the browser state has no page). -/
def create_task_and_step_from_block (block : TaskBlock) (organizationId : Option String)
    (workflowRunId : String) (ctxValue : String → Option String)
    (browserPageUrl : Option String) : Except Exn (Task × Step) :=
  match resolveBlockUrl block browserPageUrl with
  | .error e => .error e
  | .ok u =>
    let task := taskFromBlock block organizationId workflowRunId ctxValue u
    .ok (task, createStep task.taskId organizationId 0 0)

/-! ## Theorems for workflow tasks and webhooks (C2) -/

/-- C2: a task whose `workflow_run_id` is set never triggers a webhook:
`send_task_response` returns right after the final screenshot, with no
cleanup, no upload barrier and no webhook POST in its trace; and every
task created from a workflow `TaskBlock` has `webhook_callback_url =
None` (and its workflow run id set). -/
theorem workflow_task_no_webhook (env : ResponderEnv) (apiKey : Option String)
    (task : Task) (block : TaskBlock) (organizationId : Option String)
    (workflowRunId : String) (ctxValue : String → Option String)
    (browserPageUrl : Option String) :
    (env.refreshedTask = some task → task.workflowRunId.isSome →
      send_task_response env apiKey =
        .ok [.analyticsCapture task.status, .finalScreenshot] ∧
      ∀ events, send_task_response env apiKey = .ok events →
        ∀ url, ResponderEvent.webhookPost url ∉ events) ∧
    (∀ t s, create_task_and_step_from_block block organizationId workflowRunId
        ctxValue browserPageUrl = .ok (t, s) →
      t.webhookCallbackUrl = none ∧ t.workflowRunId = some workflowRunId) := by
  constructor
  · intro href hwf
    have hresp : send_task_response env apiKey =
        .ok [.analyticsCapture task.status, .finalScreenshot] := by
      simp [send_task_response, href, hwf]
    refine ⟨hresp, ?_⟩
    intro events hev url hmem
    rw [hresp] at hev
    obtain rfl := Except.ok.inj hev
    simp at hmem
  · intro t s hok
    unfold create_task_and_step_from_block at hok
    cases htu : resolveBlockUrl block browserPageUrl with
    | error e => rw [htu] at hok; cases hok
    | ok u =>
      rw [htu] at hok
      have h := Except.ok.inj hok
      injection h with h1 h2
      subst h1
      exact ⟨rfl, rfl⟩

/-- Concrete workflow task used by the C2 witness. -/
def wfTask2 : Task :=
  { taskId := "t9", workflowRunId := some "wr1", status := .completed }

/-- Concrete responder environment used by the C2 witness. -/
def wfEnv2 : ResponderEnv :=
  { refreshedTask := some wfTask2 }

/-- Concrete task block used by the C2 witness. -/
def wfBlock2 : TaskBlock :=
  { url := some "https://example.org" }

/-- Witness for `workflow_task_no_webhook`: a concrete workflow task and
a concrete block instantiation. -/
theorem workflow_task_no_webhook_witness :
    send_task_response wfEnv2 (some "key") =
      .ok [.analyticsCapture wfTask2.status, .finalScreenshot] ∧
    (∀ t s, create_task_and_step_from_block wfBlock2 (some "org") "wr1"
        (fun _ => none) none = .ok (t, s) →
      t.webhookCallbackUrl = none ∧ t.workflowRunId = some "wr1") :=
  ⟨((workflow_task_no_webhook wfEnv2 (some "key") wfTask2 wfBlock2 (some "org") "wr1"
      (fun _ => none) none).1 rfl (by decide)).1,
   (workflow_task_no_webhook wfEnv2 (some "key") wfTask2 wfBlock2 (some "org") "wr1"
      (fun _ => none) none).2⟩

/-! ## Theorems for webhook error policy (C6) -/

/-- Concrete task used by the C6 counterexample and witness. -/
def task6 : Task :=
  { taskId := "t6", webhookCallbackUrl := some "https://cb", status := .completed }

/-- Concrete non-OK HTTP response whose body is not valid JSON. -/
def cexResp6 : HttpResponse :=
  { ok := false, statusCode := 500, body := "internal server error" }

/-- Concrete webhook environment for the C6 counterexample: the POST
succeeds at the transport level, the response is non-OK, and
`resp.json()` raises on its non-JSON body. -/
def cexEnv6 : WebhookEnv :=
  { taskFromDb := some task6
    post := .ok cexResp6
    respJson := fun _ => .error "JSONDecodeError" }

/-- C6 counterexample: the claim says a non-OK HTTP response is logged
and raises no exception.  But the non-OK logging branch calls
`resp.json()` inside the same `try` whose handler raises
`FailedToSendWebhook`: a non-OK response with a non-JSON body makes
`execute_task_webhook` raise even though the POST itself did not fail at
the transport level. -/
theorem webhook_nonok_cex :
    cexEnv6.post = .ok cexResp6 ∧ cexResp6.ok = false ∧
    execute_task_webhook cexEnv6 task6 (some "key") =
      .error (.failedToSendWebhook "JSONDecodeError") :=
  ⟨rfl, rfl, rfl⟩

/-- C6 (amended): for every webhook POST performed by
`execute_task_webhook` (api key and callback url present): a
transport-level failure of the POST raises `FailedToSendWebhook`
wrapping the underlying exception; an OK response raises nothing; a
non-OK response is logged and raises nothing *provided its body decodes
as JSON* — when `resp.json()` fails in the non-OK logging branch, that
exception is wrapped in `FailedToSendWebhook` as well. -/
theorem execute_task_webhook_error_policy (env : WebhookEnv) (task taskRow : Task)
    (key url : String)
    (h1 : task.webhookCallbackUrl.isSome)
    (h2 : env.taskFromDb = some taskRow)
    (h3 : taskRow.webhookCallbackUrl = some url) :
    (∀ e, env.post = .error e →
      execute_task_webhook env task (some key) = .error (.failedToSendWebhook e)) ∧
    (∀ resp, env.post = .ok resp → resp.ok = true →
      execute_task_webhook env task (some key) = .ok [.webhookPost url]) ∧
    (∀ resp, env.post = .ok resp → resp.ok = false → env.respJson resp.body = .ok () →
      execute_task_webhook env task (some key) = .ok [.webhookPost url]) ∧
    (∀ resp e, env.post = .ok resp → resp.ok = false → env.respJson resp.body = .error e →
      execute_task_webhook env task (some key) = .error (.failedToSendWebhook e)) := by
  obtain ⟨u, hu⟩ := Option.isSome_iff_exists.mp h1
  refine ⟨?_, ?_, ?_, ?_⟩
  · intro e hpost
    simp [execute_task_webhook, hu, h2, h3, hpost]
  · intro resp hpost hok
    simp [execute_task_webhook, hu, h2, h3, hpost, hok]
  · intro resp hpost hok hjson
    simp [execute_task_webhook, hu, h2, h3, hpost, hok, hjson]
  · intro resp e hpost hok hjson
    simp [execute_task_webhook, hu, h2, h3, hpost, hok, hjson]

/-- Webhook environment whose POST fails at the transport level. -/
def wEnvFail6 : WebhookEnv :=
  { taskFromDb := some task6, post := .error "connection reset" }

/-- Webhook environment whose POST returns an OK response. -/
def wEnvOk6 : WebhookEnv :=
  { taskFromDb := some task6, post := .ok { ok := true, statusCode := 200, body := "null" } }

/-- Witness for `execute_task_webhook_error_policy`: the transport
failure and OK-response branches at concrete inputs. -/
theorem execute_task_webhook_error_policy_witness :
    execute_task_webhook wEnvFail6 task6 (some "key") =
      .error (.failedToSendWebhook "connection reset") ∧
    execute_task_webhook wEnvOk6 task6 (some "key") = .ok [.webhookPost "https://cb"] :=
  ⟨(execute_task_webhook_error_policy wEnvFail6 task6 task6 "key" "https://cb"
      rfl rfl rfl).1 "connection reset" rfl,
   (execute_task_webhook_error_policy wEnvOk6 task6 task6 "key" "https://cb"
      rfl rfl rfl).2.1 { ok := true, statusCode := 200, body := "null" } rfl rfl⟩

/-! ## Prompt action history (`_build_and_record_step_prompt`,
agent.py lines 581-588) -/

/-- Python slice `steps[-1 * w :]` (agent.py line 583): the last `w`
elements for `w ≥ 1` (the whole list when `w ≥ len`); for `w = 0` the
slice is `steps[0:]`, the whole list. -/
def lastWindowSlice (steps : List Step) (w : Nat) : List Step :=
  if w = 0 then steps else steps.drop (steps.length - w)

/-- One iteration of the flattening loop (agent.py lines 585-587): a
step contributes its `output.action_results` when the output is present
and the result list is non-empty (Python truthiness). -/
def appendStepResults (acc : List ActionResult) (s : Step) : List ActionResult :=
  match s.output with
  | none => acc
  | some o =>
    match o.actionResults with
    | none => acc
    | some rs => if rs.isEmpty then acc else acc ++ rs

/-- The action history inlined into the prompt (agent.py lines
582-588), as a list of action results (the source serializes this list
as JSON): the flattening of the window returned by
`steps[-1 * PROMPT_ACTION_HISTORY_WINDOW :]` over *all* steps of the
task fetched from the database. -/
def gatherActionHistory (steps : List Step) (w : Nat) : List ActionResult :=
  (lastWindowSlice steps w).foldl appendStepResults []

/-- Plain "last `k` elements" of a list. -/
def lastK (k : Nat) (l : List Step) : List Step :=
  l.drop (l.length - k)

/-- The action history as the claim states it: the chronological
flattening of the action results of exactly the last `w` *prior* steps
(steps executed before the current one). -/
def claimActionHistory (priorSteps : List Step) (w : Nat) : List ActionResult :=
  (lastK w priorSteps).foldl appendStepResults []

/-! ## Theorems for the prompt action history (C9) -/

/-- Concrete action result of the single prior step. -/
def r9 : ActionResult := { success := true }

/-- Concrete prior step with one recorded action result. -/
def s9 : Step :=
  { stepId := "p0", taskId := "t9c", order := 0, retryIndex := 0, status := .completed
    output := some { actionResults := some [r9] } }

/-- The current step at prompt-build time: created and marked running,
its output still `None`. -/
def c9 : Step :=
  { stepId := "cur", taskId := "t9c", order := 1, retryIndex := 0, status := .running }

/-- C9 counterexample: `get_task_steps` returns *all* steps of the task,
including the current one (created, persisted and marked running before
the prompt is built), so the slice `steps[-W:]` spends one window slot
on the current step.  With `PROMPT_ACTION_HISTORY_WINDOW = 1` and one
prior step holding result `r9`, the claim requires the history `[r9]`
(the last 1 prior steps) but the code computes `[]` (the window is just
the current step, which has no output yet). -/
theorem action_history_window_cex :
    gatherActionHistory [s9, c9] 1 = [] ∧
    claimActionHistory [s9] 1 = [r9] ∧
    gatherActionHistory [s9, c9] 1 ≠ claimActionHistory [s9] 1 :=
  ⟨rfl, rfl, by decide⟩

/-- C9 (amended): the action history inlined into the prompt is the
chronological flattening of the action results of the last
`PROMPT_ACTION_HISTORY_WINDOW` steps of the task *including the current
step*; since the current step has no output yet, for `W ≥ 1` this equals
the flattening of the last `W - 1` prior steps. -/
theorem action_history_window_amended (prior : List Step) (current : Step) (w : Nat)
    (hw : 1 ≤ w) (hcur : current.output = none) :
    gatherActionHistory (prior ++ [current]) w = claimActionHistory prior (w - 1) := by
  have hw0 : w ≠ 0 := by omega
  unfold gatherActionHistory claimActionHistory lastWindowSlice lastK
  rw [if_neg hw0]
  have hlen : (prior ++ [current]).length = prior.length + 1 := by simp
  rw [hlen]
  have hle : prior.length + 1 - w ≤ prior.length := by omega
  rw [List.drop_append_of_le_length hle, List.foldl_append]
  have harith : prior.length + 1 - w = prior.length - (w - 1) := by omega
  rw [harith]
  simp [appendStepResults, hcur]

/-- Witness for `action_history_window_amended`: with a window of 2, one
prior step and the current step, the history is that prior step's
results. -/
theorem action_history_window_amended_witness :
    gatherActionHistory [s9, c9] 2 = claimActionHistory [s9] 1 :=
  action_history_window_amended [s9] c9 2 (by decide) rfl

/-! ## Extracted information and completion policy
(`get_extracted_information_for_task`, `handle_completed_step`,
agent.py lines 621-652 and 956-1035) -/

/-- Inner scan of `get_extracted_information_for_task` (agent.py lines
634-646): over one step's pairs in order, skip non-COMPLETE actions; for
a COMPLETE action return the data of its first successful result — the
`return` exits the whole scan even when that data is `None`.  `some d`
means the source returned `d` (itself possibly `None`); `none` means
the loops fell through to the next step. -/
def firstCompleteSuccessData : List (Action × List ActionResult) → Option (Option String)
  | [] => none
  | (a, rs) :: rest =>
    if a.actionType == ActionType.complete then
      match rs.find? (fun r => r.success) with
      | some r => some r.data
      | none => firstCompleteSuccessData rest
    else firstCompleteSuccessData rest

/-- Outer scan of `get_extracted_information_for_task` (agent.py lines
629-652): steps most-recent first; skip steps that are not completed,
have no output, or whose `actions_and_results` is `None` or empty
(Python truthiness). -/
def scanExtracted : List Step → Option String
  | [] => none
  | s :: rest =>
    if s.status = StepStatus.completed then
      match s.output with
      | none => scanExtracted rest
      | some o =>
        match o.actionsAndResults with
        | none => scanExtracted rest
        | some [] => scanExtracted rest
        | some (p :: ps) =>
          match firstCompleteSuccessData (p :: ps) with
          | some d => d
          | none => scanExtracted rest
    else scanExtracted rest

/-- `ForgeAgent.get_extracted_information_for_task` over the task's
steps as returned by the database (in execution order). -/
def get_extracted_information_for_task (steps : List Step) : Option String :=
  scanExtracted steps.reverse

/-- The claim's phrasing of the within-step search: the first successful
result among the flattened result lists of the step's COMPLETE actions,
its data returned. -/
def completeDataSearch (pairs : List (Action × List ActionResult)) : Option (Option String) :=
  (((pairs.filter fun p => p.1.actionType == ActionType.complete).map Prod.snd).flatten.find?
    (fun r => r.success)).map fun r => r.data

/-- The claim's phrasing of the per-step candidate: `none` for a step
that is skipped (not completed or no `actions_and_results`), otherwise
the within-step search result. -/
def stepExtractedCandidate (s : Step) : Option (Option String) :=
  if s.status = StepStatus.completed then
    match s.output with
    | some o =>
      match o.actionsAndResults with
      | some pairs => if pairs = [] then none else completeDataSearch pairs
      | none => none
    | none => none
  else none

/-- The extracted information as the claim states it: scan the steps in
reverse order, skipping non-qualifying steps, and return the datum of
the first step whose search yields one; `None` when no step does. -/
def extractedInformationSpec (steps : List Step) : Option String :=
  (steps.reverse.findSome? stepExtractedCandidate).join

/-- The within-step scan of the source equals the claim's
flatten-and-search formulation. -/
theorem firstCompleteSuccessData_eq (pairs : List (Action × List ActionResult)) :
    firstCompleteSuccessData pairs = completeDataSearch pairs := by
  induction pairs with
  | nil => rfl
  | cons hd rest ih =>
    obtain ⟨a, rs⟩ := hd
    cases hc : (a.actionType == ActionType.complete) with
    | true =>
      cases hf : rs.find? (fun r => r.success) with
      | some r =>
        simp [firstCompleteSuccessData, completeDataSearch, hc, hf, List.filter_cons,
          List.find?_append, Option.or]
      | none =>
        simp [firstCompleteSuccessData, completeDataSearch, hc, hf, List.filter_cons,
          List.find?_append, Option.or, ih]
    | false =>
      simp [firstCompleteSuccessData, completeDataSearch, hc, List.filter_cons, ih]

/-- The outer scan of the source equals the claim's
reverse-scan-and-first-candidate formulation. -/
theorem scanExtracted_eq (l : List Step) :
    scanExtracted l = (l.findSome? stepExtractedCandidate).join := by
  induction l with
  | nil => rfl
  | cons s rest ih =>
    rw [List.findSome?_cons]
    by_cases hs : s.status = StepStatus.completed
    · cases ho : s.output with
      | none => simp [scanExtracted, stepExtractedCandidate, hs, ho, ih]
      | some o =>
        cases hp : o.actionsAndResults with
        | none => simp [scanExtracted, stepExtractedCandidate, hs, ho, hp, ih]
        | some pairs =>
          cases pairs with
          | nil => simp [scanExtracted, stepExtractedCandidate, hs, ho, hp, ih]
          | cons p ps =>
            have hfc := firstCompleteSuccessData_eq (p :: ps)
            cases hd : firstCompleteSuccessData (p :: ps) with
            | some d =>
              simp [scanExtracted, stepExtractedCandidate, hs, ho, hp, hd, ← hfc]
            | none =>
              simp [scanExtracted, stepExtractedCandidate, hs, ho, hp, hd, ← hfc, ih]
    · simp [scanExtracted, stepExtractedCandidate, hs, ih]

/-- Modelled from the spec: `Step.is_goal_achieved`
(`skyvern/forge/sdk/models.py` is not under src/) — a successful
COMPLETE action exists in this step's output. -/
def Step.isGoalAchieved (s : Step) : Bool :=
  match s.output with
  | none => false
  | some o =>
    match o.actionsAndResults with
    | none => false
    | some pairs => pairs.any fun p => p.1.actionType == ActionType.complete && p.2.any (·.success)

/-- Modelled from the spec: `Step.is_terminated`
(`skyvern/forge/sdk/models.py` is not under src/) — a TERMINATE action
exists in this step's output. -/
def Step.isTerminated (s : Step) : Bool :=
  match s.output with
  | none => false
  | some o =>
    match o.actionsAndResults with
    | none => false
    | some pairs => pairs.any fun p => p.1.actionType == ActionType.terminate

/-- Inner scan of `get_failure_reason_for_task` (agent.py lines
669-672): the reasoning of the first TERMINATE action, returned even
when `None`. -/
def findTerminateReasoning : List (Action × List ActionResult) → Option (Option String)
  | [] => none
  | (a, _) :: rest =>
    if a.actionType == ActionType.terminate then some a.reasoning
    else findTerminateReasoning rest

/-- Outer scan of `get_failure_reason_for_task` (agent.py lines
654-678). -/
def scanFailureReason : List Step → Option String
  | [] => none
  | s :: rest =>
    if s.status = StepStatus.completed then
      match s.output with
      | none => scanFailureReason rest
      | some o =>
        match o.actionsAndResults with
        | none => scanFailureReason rest
        | some [] => scanFailureReason rest
        | some (p :: ps) =>
          match findTerminateReasoning (p :: ps) with
          | some r => r
          | none => scanFailureReason rest
    else scanFailureReason rest

/-- `ForgeAgent.get_failure_reason_for_task` over the task's steps. -/
def get_failure_reason_for_task (steps : List Step) : Option String :=
  scanFailureReason steps.reverse

/-- Collaborator state consumed by `handle_completed_step`: the task's
steps as stored, the context override and the organization and settings
ceilings. -/
structure PolicyEnv where
  steps : List Step := []
  maxStepsOverride : Option Nat := none
  orgMaxStepsPerRun : Option Nat := none
  settingsMaxStepsPerRun : Nat := 10

/-- `ForgeAgent.handle_completed_step` (agent.py lines 956-1035).
Returns the source's triple `(is_task_completed, maybe_last_step,
maybe_next_step)` together with the task row after the `update_task`
write (the database task state, surfaced so theorems can speak about
it; on the advance branch the task row is unchanged). -/
def handle_completed_step (env : PolicyEnv) (task : Task) (step : Step) :
    (Option Bool × Option Step × Option Step) × Task :=
  if step.isGoalAchieved then
    let lastStep := applyStepUpdate step { isLast := some true }
    let extracted := get_extracted_information_for_task env.steps
    ((some true, some lastStep, none),
      applyTaskUpdate task (some .completed) extracted none)
  else if step.isTerminated then
    let lastStep := applyStepUpdate step { isLast := some true }
    let reason := get_failure_reason_for_task env.steps
    ((some false, some lastStep, none),
      applyTaskUpdate task (some .terminated) none reason)
  else
    let maxSteps := effectiveMaxSteps env.maxStepsOverride env.orgMaxStepsPerRun
      env.settingsMaxStepsPerRun
    if step.order + 1 ≥ maxSteps then
      let lastStep := applyStepUpdate step { isLast := some true }
      ((some false, some lastStep, none),
        applyTaskUpdate task (some .failed) none
          (some ("Max steps per task (" ++ toString maxSteps ++ ") exceeded")))
    else
      ((none, none, some (createStep task.taskId task.organizationId (step.order + 1) 0)),
        task)

/-! ## Theorems for extracted information (C8) -/

/-- C8: for every task completed via a goal-achieved step (and not
carrying extracted information from before, which no non-terminal task
does), the extracted information stored on the task equals the
reverse-scan resolution the claim describes: steps scanned most-recent
first, non-qualifying steps skipped, and within the first step whose
COMPLETE actions hold a successful result, that first successful
result's data — `None` when no step yields one. -/
theorem extracted_information_resolution (env : PolicyEnv) (task : Task) (step : Step)
    (hprev : task.extractedInformation = none)
    (hgoal : step.isGoalAchieved = true) :
    get_extracted_information_for_task env.steps = extractedInformationSpec env.steps ∧
    (handle_completed_step env task step).2.status = .completed ∧
    (handle_completed_step env task step).2.extractedInformation =
      extractedInformationSpec env.steps ∧
    (handle_completed_step env task step).1 =
      (some true, some (applyStepUpdate step { isLast := some true }), none) := by
  have heq : get_extracted_information_for_task env.steps =
      extractedInformationSpec env.steps := by
    unfold get_extracted_information_for_task extractedInformationSpec
    exact scanExtracted_eq env.steps.reverse
  refine ⟨heq, ?_, ?_, ?_⟩
  · simp [handle_completed_step, hgoal, applyTaskUpdate]
  · rw [← heq]
    cases hx : get_extracted_information_for_task env.steps with
    | none => simp [handle_completed_step, hgoal, applyTaskUpdate, hx, hprev]
    | some v => simp [handle_completed_step, hgoal, applyTaskUpdate, hx]
  · simp [handle_completed_step, hgoal]

/-- Action pairs of the older C8 witness step: a successful COMPLETE
action carrying data. -/
def w8olderPairs : List (Action × List ActionResult) :=
  [({ actionType := .complete }, [{ success := true, data := some "alice" }])]

/-- Action pairs of the newer C8 witness step: only a CLICK. -/
def w8newerPairs : List (Action × List ActionResult) :=
  [({ actionType := .click, elementId := some 1 }, [{ success := true }])]

/-- Concrete older completed step for the C8 witness. -/
def w8older : Step :=
  { stepId := "w8a", taskId := "t8", order := 0, retryIndex := 0, status := .completed
    output := some { actionsAndResults := some w8olderPairs } }

/-- See `w8older`: the newer completed step with no COMPLETE action —
the reverse scan skips past it. -/
def w8newer : Step :=
  { stepId := "w8b", taskId := "t8", order := 1, retryIndex := 0, status := .completed
    output := some { actionsAndResults := some w8newerPairs } }

/-- Witness for `extracted_information_resolution` at concrete inputs:
the reverse scan skips the newer COMPLETE-less step and stores the older
step's COMPLETE data. -/
theorem extracted_information_resolution_witness :
    (handle_completed_step { steps := [w8older, w8newer] }
        { taskId := "t8", status := .running } w8older).2.extractedInformation =
      extractedInformationSpec [w8older, w8newer] ∧
    extractedInformationSpec [w8older, w8newer] = some "alice" := by
  constructor
  · exact (extracted_information_resolution { steps := [w8older, w8newer] }
      { taskId := "t8", status := .running } w8older rfl rfl).2.2.1
  · rfl

/-! ## The step executor (`ForgeAgent.agent_step`, agent.py lines 301-477) -/

/-- A scraped page (`ScrapedPage` in
`skyvern/webeye/scraper/scraper.py`): the fields agent_step consumes. -/
structure ScrapedPage where
  html : String := ""
  elementTreeTrimmed : String := ""
  screenshots : List String := []
  deriving DecidableEq, Repr

/-- The working aggregate of one step (`DetailedAgentStepOutput` in
`skyvern/webeye/actions/models.py`): populated field by field as
agent_step progresses, so that the top-level handler sees whatever has
accumulated at the point an exception is raised. -/
structure DetailedAgentStepOutput where
  scrapedPage : Option ScrapedPage := none
  extractActionPrompt : Option String := none
  llmResponse : Option String := none
  actions : Option (List Action) := none
  actionResults : Option (List ActionResult) := none
  actionsAndResults : Option (List (Action × List ActionResult)) := none
  deriving DecidableEq, Repr

/-- Modelled from the spec: `DetailedAgentStepOutput.to_agent_step_output`
(`skyvern/webeye/actions/models.py` is not under src/) — projects the
working aggregate onto the persisted `AgentStepOutput`. -/
def DetailedAgentStepOutput.toAgentStepOutput (d : DetailedAgentStepOutput) :
    AgentStepOutput :=
  { actions := d.actions
    actionResults := d.actionResults
    actionsAndResults := d.actionsAndResults }

/-- `update_step(step, status=running)` as performed by agent_step
(agent.py line 324); the database write is modelled as pure. -/
def markRunning (s : Step) : Step :=
  applyStepUpdate s { status := some .running }

/-- `update_step(step, status=failed, output=...)`. -/
def markFailed (s : Step) (d : DetailedAgentStepOutput) : Step :=
  applyStepUpdate s { status := some .failed, output := some d.toAgentStepOutput }

/-- `update_step(step, status=completed, output=...)`. -/
def markCompleted (s : Step) (d : DetailedAgentStepOutput) : Step :=
  applyStepUpdate s { status := some .completed, output := some d.toAgentStepOutput }

/-- Oracles consumed by `agent_step`, one per external call that can
raise: scraping with prompt building, the LLM call, parsing the LLM
response into actions, the per-action handler (indexed by position in
the executed sequence) and the per-action artifact recording (which
raises `BrowserStateMissingPage` when the browser state has no page;
the inner capture failures are swallowed by the source). -/
structure AgentStepEnv where
  buildPrompt : Except Exn (ScrapedPage × String) := .error "scrape failed"
  llm : Except Exn String := .error "llm failed"
  parseActions : String → Except Exn (List Action) := fun _ => .error "parse failed"
  handle : Nat → Action → Except Exn (List ActionResult) := fun _ _ => .ok []
  recordArtifacts : Nat → Except Exn Unit := fun _ => .ok ()

/-- Wait-action pruning (agent.py lines 382-392): when the parsed
sequence has more than one action and contains both WAIT and non-WAIT
actions, the WAIT actions are dropped; otherwise the sequence is kept. -/
def filterWaitActions (actions : List Action) : List Action :=
  if 1 < actions.length then
    let waitActionsToSkip := actions.filter fun a => a.actionType == ActionType.wait
    if 0 < waitActionsToSkip.length ∧ waitActionsToSkip.length < actions.length then
      actions.filter fun a => a.actionType != ActionType.wait
    else actions
  else actions

/-- `result.step_retry_number` / `result.step_order` stamping
(agent.py lines 411-413). -/
def stampResults (step : Step) (rs : List ActionResult) : List ActionResult :=
  rs.map fun r =>
    { r with stepRetryNumber := some step.retryIndex, stepOrder := some step.order }

/-- The duplicate-element guard test (agent.py lines 400-404). -/
def dupElement (seen : List Nat) (a : Action) : Bool :=
  match a.elementId with
  | some eid => seen.contains eid
  | none => false

/-- Adding a web action's element id to the seen set. -/
def extendSeen (seen : List Nat) (a : Action) : List Nat :=
  match a.elementId with
  | some eid => eid :: seen
  | none => seen

/-- How the executor loop ended: fell through (all actions done, a
duplicate-element break, or a javascript-triggered break), returned
early with the step marked failed, or raised an exception. -/
inductive LoopExit
  | fallthrough (aar : List (Action × List ActionResult)) (acc : List ActionResult)
  | failedReturn (aar : List (Action × List ActionResult)) (acc : List ActionResult)
  | raised (e : Exn) (aar : List (Action × List ActionResult)) (acc : List ActionResult)
  deriving DecidableEq, Repr

/-- The executor loop (agent.py lines 398-451) over the remaining
actions.  `idx` is the enumeration index, `seen` the element ids already
targeted, `aar` the `actions_and_results` list (pre-populated with empty
result lists), `acc` the flat `action_results`.  The first component of
the result is the instrumentation trace of actions dispatched to the
handler, in order. -/
def execLoop (env : AgentStepEnv) (step : Step) :
    List Action → Nat → List Nat →
    List (Action × List ActionResult) → List ActionResult →
    List Action × LoopExit
  | [], _, _, aar, acc => ([], .fallthrough aar acc)
  | a :: rest, idx, seen, aar, acc =>
    if dupElement seen a then ([], .fallthrough aar acc)
    else
      match env.handle idx a with
      | .error e => ([a], .raised e aar acc)
      | .ok results =>
        match env.recordArtifacts idx with
        | .error e => ([a], .raised e (aar.set idx (a, results)) acc)
        | .ok _ =>
          match (stampResults step results).getLast? with
          | some last =>
            if last.success then
              if last.javascriptTriggered then
                ([a], .fallthrough (aar.set idx (a, stampResults step results))
                  (acc ++ stampResults step results))
              else
                match execLoop env step rest (idx + 1) (extendSeen seen a)
                    (aar.set idx (a, stampResults step results))
                    (acc ++ stampResults step results) with
                | (tr, ex) => (a :: tr, ex)
            else
              ([a], .failedReturn (aar.set idx (a, stampResults step results))
                (acc ++ stampResults step results))
          | none =>
            ([a], .failedReturn (aar.set idx (a, stampResults step results))
              (acc ++ stampResults step results))

/-- The working aggregate with the loop's `actions_and_results` and
flat `action_results` written back (the source mutates these lists in
place). -/
def doutWith (d : DetailedAgentStepOutput) (aar : List (Action × List ActionResult))
    (acc : List ActionResult) : DetailedAgentStepOutput :=
  { d with actionsAndResults := some aar, actionResults := some acc }

/-- Completion of the executor loop (the failure return at agent.py
lines 447-451 and the completion at lines 453-465), mapping a loop exit
to the step result; a raised exception propagates to the top-level
handler together with the output accumulated so far. -/
def finishLoop (step1 : Step) (d : DetailedAgentStepOutput) :
    List Action × LoopExit →
    List Action × Except (Exn × DetailedAgentStepOutput) (Step × DetailedAgentStepOutput)
  | (tr, .fallthrough aar acc) =>
    (tr, .ok (markCompleted step1 (doutWith d aar acc), doutWith d aar acc))
  | (tr, .failedReturn aar acc) =>
    (tr, .ok (markFailed step1 (doutWith d aar acc), doutWith d aar acc))
  | (tr, .raised e aar acc) =>
    (tr, .error (e, doutWith d aar acc))

/-- agent_step once the action list is determined (agent.py lines
349-465): record the actions, empty-action guard (lines 350-369), wait
pruning, pre-population of `actions_and_results` (line 396), executor
loop. -/
def agent_step_actions (env : AgentStepEnv) (step1 : Step) (scraped : ScrapedPage)
    (prompt : String) (llmResponse : Option String) (d0 : DetailedAgentStepOutput)
    (actions : List Action) :
    List Action × Except (Exn × DetailedAgentStepOutput) (Step × DetailedAgentStepOutput) :=
  let d1 := { d0 with actions := some actions }
  if actions.length = 0 then
    let dFresh : DetailedAgentStepOutput :=
      { scrapedPage := some scraped
        extractActionPrompt := some prompt
        llmResponse := llmResponse
        actions := some actions
        actionResults := some []
        actionsAndResults := some [] }
    ([], .ok (markFailed step1 d1, dFresh))
  else
    let d2 := { d1 with actionResults := some [] }
    let pruned := filterWaitActions actions
    let aar0 := pruned.map fun a => (a, ([] : List ActionResult))
    let d3 := { d2 with actionsAndResults := some aar0 }
    finishLoop step1 d3 (execLoop env step1 pruned 0 [] aar0 [])

/-- The `try` body of `agent_step` (agent.py lines 316-465), returning
the dispatch trace and either the step result or the raised exception
paired with the output accumulated at the raise point.  Without a
navigation goal the single default COMPLETE action is used (lines
343-348). -/
def agent_step_body (env : AgentStepEnv) (task : Task) (step1 : Step) :
    List Action × Except (Exn × DetailedAgentStepOutput) (Step × DetailedAgentStepOutput) :=
  match env.buildPrompt with
  | .error e => ([], .error (e, {}))
  | .ok (scraped, prompt) =>
    let d1 : DetailedAgentStepOutput :=
      { scrapedPage := some scraped, extractActionPrompt := some prompt }
    match task.navigationGoal with
    | some _ =>
      match env.llm with
      | .error e => ([], .error (e, d1))
      | .ok resp =>
        let d2 := { d1 with llmResponse := some resp }
        match env.parseActions resp with
        | .error e => ([], .error (e, d2))
        | .ok actions => agent_step_actions env step1 scraped prompt (some resp) d2 actions
    | none =>
      agent_step_actions env step1 scraped prompt none d1
        [{ actionType := .complete, reasoning := some "Task has no navigation goal."
           data := task.dataExtractionGoal }]

/-- `ForgeAgent.agent_step` (agent.py lines 301-477): mark the step
running, run the body, and catch any raised exception in the single
top-level handler (lines 466-477), which marks the step failed with
whatever output has accumulated and returns the pair.  The first
component is the instrumentation trace of dispatched actions. -/
def agent_step (env : AgentStepEnv) (task : Task) (step0 : Step) :
    List Action × (Step × DetailedAgentStepOutput) :=
  let step1 := markRunning step0
  match agent_step_body env task step1 with
  | (tr, .ok r) => (tr, r)
  | (tr, .error (_, d)) => (tr, (markFailed step1 d, d))

/-- Every action dispatched by the executor loop comes from its input
sequence. -/
theorem execLoop_trace_subset (env : AgentStepEnv) (step : Step) :
    ∀ (actions : List Action) (idx : Nat) (seen : List Nat)
      (aar : List (Action × List ActionResult)) (acc : List ActionResult)
      (a : Action), a ∈ (execLoop env step actions idx seen aar acc).1 → a ∈ actions := by
  intro actions
  induction actions with
  | nil =>
    intro idx seen aar acc a ha
    simp [execLoop] at ha
  | cons hd rest ih =>
    intro idx seen aar acc a ha
    rw [execLoop] at ha
    split at ha
    · simp at ha
    · split at ha
      next e heq =>
        simp at ha
        simp [ha]
      next results heq =>
        split at ha
        next e2 heq2 =>
          simp at ha
          simp [ha]
        next u heq2 =>
          split at ha
          next last heq3 =>
            split at ha
            · split at ha
              · simp at ha
                simp [ha]
              · split at ha
                next tr ex heq4 =>
                  simp at ha
                  rcases ha with rfl | hmem
                  · exact List.mem_cons_self _ _
                  · have htr : a ∈ (execLoop env step rest (idx + 1) (extendSeen seen hd)
                        (aar.set idx (hd, stampResults step results))
                        (acc ++ stampResults step results)).1 := by
                      rw [heq4]
                      exact hmem
                    exact List.mem_cons_of_mem _ (ih _ _ _ _ a htr)
            · simp at ha
              simp [ha]
          next heq3 =>
            simp at ha
            simp [ha]

/-! ## Theorems for the top-level exception handler (C1) -/

/-- C1: no exception escapes `agent_step`: whenever the body raises, the
single top-level handler catches it, marks the step failed with the
output accumulated at the raise point, and returns that (failed step,
output) pair; whenever the body returns normally, its result is returned
unchanged.  The function is total, so a pair is returned to the caller
in every case. -/
theorem agent_step_no_escape (env : AgentStepEnv) (task : Task) (step0 : Step) :
    (∀ tr e d, agent_step_body env task (markRunning step0) = (tr, .error (e, d)) →
      agent_step env task step0 = (tr, (markFailed (markRunning step0) d, d)) ∧
      (markFailed (markRunning step0) d).status = .failed) ∧
    (∀ tr r, agent_step_body env task (markRunning step0) = (tr, .ok r) →
      agent_step env task step0 = (tr, r)) := by
  constructor
  · intro tr e d hbody
    refine ⟨?_, rfl⟩
    simp [agent_step, hbody]
  · intro tr r hbody
    simp [agent_step, hbody]

/-- Concrete task for the C1 witness. -/
def task1w : Task :=
  { taskId := "t1w", navigationGoal := some "click login", status := .running }

/-- Concrete fresh step for the C1 witness. -/
def step1w : Step :=
  { stepId := "s1w", taskId := "t1w", order := 0, retryIndex := 0, status := .created }

/-- Witness for `agent_step_no_escape`: under the default environment
the scrape raises, and agent_step returns the step marked failed with
the empty accumulated output. -/
theorem agent_step_no_escape_witness :
    agent_step {} task1w step1w =
      ([], (markFailed (markRunning step1w) {}, {})) ∧
    (markFailed (markRunning step1w) ({} : DetailedAgentStepOutput)).status = .failed :=
  (agent_step_no_escape {} task1w step1w).1 [] "scrape failed" {} rfl

/-! ## Theorems for wait-action pruning (C4) -/

/-- C4: wait-action pruning — when the parsed sequence has length > 1
and mixes WAIT with non-WAIT actions, the sequence entering the executor
loop contains no WAIT, and hence no WAIT action is ever dispatched to
the handler; a sequence consisting solely of WAIT actions (any length)
enters the executor unchanged. -/
theorem wait_action_pruning (env : AgentStepEnv) (step : Step) (actions : List Action) :
    (1 < actions.length →
      (∃ a ∈ actions, a.actionType = ActionType.wait) →
      (∃ a ∈ actions, a.actionType ≠ ActionType.wait) →
      (∀ a ∈ filterWaitActions actions, a.actionType ≠ ActionType.wait) ∧
      (∀ idx seen aar acc a,
        a ∈ (execLoop env step (filterWaitActions actions) idx seen aar acc).1 →
        a.actionType ≠ ActionType.wait)) ∧
    ((∀ a ∈ actions, a.actionType = ActionType.wait) →
      filterWaitActions actions = actions) := by
  constructor
  · intro hlen hwait hnon
    obtain ⟨w, hwmem, hwty⟩ := hwait
    obtain ⟨c, hcmem, hcty⟩ := hnon
    have h1 : 0 < (actions.filter fun a => a.actionType == ActionType.wait).length := by
      have : w ∈ actions.filter fun a => a.actionType == ActionType.wait :=
        List.mem_filter.mpr ⟨hwmem, by simp [hwty]⟩
      exact List.length_pos.mpr (List.ne_nil_of_mem this)
    have h2 : (actions.filter fun a => a.actionType == ActionType.wait).length <
        actions.length := by
      rw [List.length_filter_lt_length_iff_exists]
      exact ⟨c, hcmem, by simp [hcty]⟩
    have hres : filterWaitActions actions =
        actions.filter fun a => a.actionType != ActionType.wait := by
      unfold filterWaitActions
      rw [if_pos hlen, if_pos ⟨h1, h2⟩]
    have hnowait : ∀ a ∈ filterWaitActions actions, a.actionType ≠ ActionType.wait := by
      intro a ha
      rw [hres] at ha
      have := (List.mem_filter.mp ha).2
      simpa using this
    refine ⟨hnowait, ?_⟩
    intro idx seen aar acc a ha
    exact hnowait a (execLoop_trace_subset env step (filterWaitActions actions)
      idx seen aar acc a ha)
  · intro hall
    by_cases hlen : 1 < actions.length
    · have hfe : actions.filter (fun a => a.actionType == ActionType.wait) = actions :=
        List.filter_eq_self.mpr fun a ha => by simp [hall a ha]
      have : ¬ (0 < (actions.filter fun a => a.actionType == ActionType.wait).length ∧
          (actions.filter fun a => a.actionType == ActionType.wait).length <
            actions.length) := by
        rw [hfe]
        omega
      unfold filterWaitActions
      rw [if_pos hlen, if_neg this]
    · unfold filterWaitActions
      rw [if_neg hlen]

/-- The running step used by the C4 witness. -/
def stepW4 : Step :=
  { stepId := "sw", taskId := "tw", order := 0, retryIndex := 0, status := .running }

/-- A WAIT action for the C4 witness. -/
def waitA : Action := { actionType := .wait }

/-- A CLICK action for the C4 witness. -/
def clickA : Action := { actionType := .click, elementId := some 1 }

/-- Witness for `wait_action_pruning`: a mixed WAIT/CLICK pair is pruned
of its WAIT, and an all-WAIT pair is preserved. -/
theorem wait_action_pruning_witness :
    (∀ a ∈ filterWaitActions [waitA, clickA], a.actionType ≠ ActionType.wait) ∧
    filterWaitActions [waitA, waitA] = [waitA, waitA] :=
  ⟨((wait_action_pruning {} stepW4 [waitA, clickA]).1
      (by simp)
      ⟨waitA, List.mem_cons_self _ _, rfl⟩
      ⟨clickA, List.mem_cons_of_mem _ (List.mem_cons_self _ _), by decide⟩).1,
   (wait_action_pruning {} stepW4 [waitA, waitA]).2
      (by
        intro a ha
        rcases List.mem_cons.mp ha with rfl | ha2
        · rfl
        · rcases List.mem_cons.mp ha2 with rfl | ha3
          · rfl
          · cases ha3)⟩

/-! ## Theorems for empty handler results (C10) -/

/-- C10: an action whose handler returns an empty result list is
classified as a failure: the loop stores the empty result list, returns
immediately with the step marked failed on the accumulated output, and
dispatches no subsequent action — even though no result in the list
reports `success = false`. -/
theorem empty_result_list_fails_step (env : AgentStepEnv) (step1 : Step)
    (d : DetailedAgentStepOutput) (a : Action) (rest : List Action) (idx : Nat)
    (seen : List Nat) (aar : List (Action × List ActionResult)) (acc : List ActionResult)
    (hdup : dupElement seen a = false)
    (hhandle : env.handle idx a = .ok [])
    (hart : env.recordArtifacts idx = .ok ()) :
    execLoop env step1 (a :: rest) idx seen aar acc =
      ([a], .failedReturn (aar.set idx (a, [])) acc) ∧
    finishLoop step1 d (execLoop env step1 (a :: rest) idx seen aar acc) =
      ([a], .ok (markFailed step1 (doutWith d (aar.set idx (a, [])) acc),
        doutWith d (aar.set idx (a, [])) acc)) ∧
    (markFailed step1 (doutWith d (aar.set idx (a, [])) acc)).status = .failed := by
  have hloop : execLoop env step1 (a :: rest) idx seen aar acc =
      ([a], .failedReturn (aar.set idx (a, [])) acc) := by
    rw [execLoop]
    simp [hdup, hhandle, hart, stampResults]
  refine ⟨hloop, ?_, rfl⟩
  rw [hloop]
  rfl

/-- Environment for the C10 witness: the handler returns the empty
result list. -/
def cenv10 : AgentStepEnv :=
  { buildPrompt := .ok ({}, "prompt"), handle := fun _ _ => .ok [] }

/-- Running step for the C10 witness. -/
def step10 : Step :=
  { stepId := "s10", taskId := "t10", order := 0, retryIndex := 0, status := .running }

/-- The single click action dispatched in the C10 witness. -/
def act10 : Action := { actionType := .click, elementId := some 7 }

/-- Witness for `empty_result_list_fails_step` at a concrete click
action whose handler yields no results. -/
theorem empty_result_list_fails_step_witness :
    execLoop cenv10 step10 [act10] 0 [] [(act10, [])] [] =
      ([act10], .failedReturn ([(act10, [])].set 0 (act10, [])) []) ∧
    finishLoop step10 {} (execLoop cenv10 step10 [act10] 0 [] [(act10, [])] []) =
      ([act10], .ok (markFailed step10 (doutWith {} ([(act10, [])].set 0 (act10, [])) []),
        doutWith {} ([(act10, [])].set 0 (act10, [])) [])) ∧
    (markFailed step10 (doutWith {} ([(act10, [])].set 0 (act10, [])) [])).status = .failed :=
  empty_result_list_fails_step cenv10 step10 {} act10 [] 0 [] [(act10, [])] [] rfl rfl rfl

end Skyvern
